import Mathlib

/-!
Shallow embedding of `pkg/verifier/tlog.go` from trail-of-forks/sigstore-go.

The Go file defines `ArtifactTransparencyLogVerifier` with a `Verify`
method over a `SignedEntity`.  External collaborators (the entity's
accessors, `tlog.ValidateEntry`, `tlog.VerifySET`, the Rekor client) are
modelled as oracle functions gathered in `VerifyEnv`; opaque handles
(certificates, Rekor clients/verifiers, anonymous log-entry records) are
modelled as natural numbers.  Go byte slices are `List Nat`, Go `int` and
`int64` are `Int`, Go `error` results are `Option GoError` (with `none`
for Go's `nil`) and fallible value-returning calls are `Except GoError`.

To make "no cryptographic or network work is performed" statable, the
embedding is instrumented: every function returns, next to the Go result,
the list of collaborator calls it performed, in order.
-/

/-- One distinct error return site of `Verify` in `tlog.go`.  Errors
propagated from collaborators are `external`; the others carry exactly
the data interpolated in the corresponding `fmt.Errorf`/`errors.New`. -/
inductive GoError where
  | external (msg : String)
  | notEnoughTlogEntries (count threshold : Int)
  | unknownTlogKey (hex64Key : String)
  | unableToLocateLogEntry (logIndex : Int)
  | tooManyLogEntries
  | sigMismatch
  | certMismatch
  | integratedTimeOutsideValidity
deriving DecidableEq, Repr

/-- The message the Go code attaches to each error value, mirroring its
`fmt.Errorf` / `errors.New` arguments. -/
def GoError.message : GoError → String
  | .external m => m
  | .notEnoughTlogEntries n t =>
      "not enough transparency log entries: " ++ toString n ++ " < " ++ toString t
  | .unknownTlogKey k => "unable to find tlog information for key " ++ k
  | .unableToLocateLogEntry i => "unable to locate log entry " ++ toString i
  | .tooManyLogEntries => "too many log entries returned"
  | .sigMismatch => "transparency log signature does not match"
  | .certMismatch => "transparency log certificate does not match"
  | .integratedTimeOutsideValidity => "Integrated time outside certificate validity"

/-- Constructor index of an error: 0 for a collaborator-propagated
(`external`) error, 1-7 for the seven errors `Verify` constructs at its
own return sites. -/
def GoError.kind : GoError → Nat
  | .external _ => 0
  | .notEnoughTlogEntries _ _ => 1
  | .unknownTlogKey _ => 2
  | .unableToLocateLogEntry _ => 3
  | .tooManyLogEntries => 4
  | .sigMismatch => 5
  | .certMismatch => 6
  | .integratedTimeOutsideValidity => 7

/-- The first 18 characters of each own-error message of `Verify`;
these prefixes are pairwise distinct, whatever data the message
interpolates after them. -/
def kindTagList : Nat → List Char
  | 1 => "not enough transpa".data
  | 2 => "unable to find tlo".data
  | 3 => "unable to locate l".data
  | 4 => "too many log entri".data
  | 5 => "transparency log s".data
  | 6 => "transparency log c".data
  | 7 => "Integrated time ou".data
  | _ => []

/-- Opaque certificate handle (`*x509.Certificate`). -/
abbrev Certificate := Nat

/-- Opaque Rekor client handle (`*rekorGeneratedClient.Rekor`). -/
abbrev RekorClient := Nat

/-- Opaque Rekor public-key verifier handle (`*signature.Verifier`). -/
abbrev RekorVerifier := Nat

/-- Opaque anonymous log-entry record (`models.LogEntryAnon`), one value
of the `map[string]LogEntryAnon` that a `models.LogEntry` is. -/
abbrev RekorEntryAnon := Nat

/-- Opaque handle for `trustedRoot.TlogVerifiers()`. -/
abbrev TlogVerifiersSet := Nat

/-- One claimed transparency-log record (`tlog.Entry` capability view):
log key identifier bytes, log index, signature bytes, embedded
certificate, integrated time. -/
structure TlogEntry where
  LogKeyID : List Nat
  LogIndex : Int
  Signature : List Nat
  Certificate : Certificate
  IntegratedTime : Int
deriving DecidableEq, Repr

/-- `sigContent` capability: `GetSignature()` returns the entity's own
signature bytes. -/
structure SignatureContent where
  GetSignature : List Nat

/-- `verificationContent` capability: `CompareKey` and `ValidAtTime`
predicates. -/
structure VerificationContent where
  CompareKey : Certificate → Bool
  ValidAtTime : Int → Bool

/-- The artifact-plus-evidence bundle under test: each accessor may fail
(Go's `(value, error)` pair). -/
structure SignedEntity where
  tlogEntries : Except GoError (List TlogEntry)
  signatureContent : Except GoError SignatureContent
  verificationContent : Except GoError VerificationContent

/-- One trusted log's identity (`root.TlogVerifier`); only its base URL
is consumed by `Verify`. -/
structure TlogVerifier where
  BaseURL : String
deriving DecidableEq, Repr

/-- `root.TrustedRoot`; `Verify` only consumes `TlogVerifiers()`. -/
structure TrustedRoot where
  TlogVerifiers : TlogVerifiersSet

/-- The verifier under test (`ArtifactTransparencyLogVerifier`).  The Go
`map[string]*root.TlogVerifier` becomes an association list looked up
with `List.lookup`. -/
structure ArtifactTransparencyLogVerifier where
  trustedRoot : TrustedRoot
  threshold : Int
  online : Bool
  tlogVerifiers : List (String × TlogVerifier)

/-- `NewArtifactTransparencyLogVerifier`: stores its arguments verbatim,
with no validation of the threshold. -/
def NewArtifactTransparencyLogVerifier (trustedRoot : TrustedRoot) (threshold : Int)
    (online : Bool) (tlogVerifiers : List (String × TlogVerifier)) :
    ArtifactTransparencyLogVerifier :=
  { trustedRoot := trustedRoot, threshold := threshold, online := online,
    tlogVerifiers := tlogVerifiers }

/-- One collaborator invocation performed during verification. -/
inductive Call where
  | validateEntry (entry : TlogEntry)
  | verifySET (entry : TlogEntry)
  | getRekorClient (baseURL : String)
  | searchLogQuery (client : RekorClient) (logIndex : Int)
  | verifyLogEntry (v : RekorEntryAnon)
deriving DecidableEq, Repr

/-- Behaviour of the external collaborators consumed by `Verify`:
`tlog.ValidateEntry`, `tlog.VerifySET`, `getRekorClient`,
`client.Entries.SearchLogQuery` (its payload is a list of
`map[string]LogEntryAnon`, each map given as its list of values in
iteration order) and `rekorVerify.VerifyLogEntry`. -/
structure VerifyEnv where
  validateEntry : TlogEntry → Option GoError
  verifySET : TlogEntry → TlogVerifiersSet → Option GoError
  getRekorClient : String → Except GoError (RekorClient × RekorVerifier)
  searchLogQuery : RekorClient → Int → Except GoError (List (List RekorEntryAnon))
  verifyLogEntry : RekorEntryAnon → RekorVerifier → Option GoError

/-- Prepend a performed call to an instrumented result. -/
def addCall (c : Call) (r : Option GoError × List Call) : Option GoError × List Call :=
  (r.1, c :: r.2)

/-- Go's `hex` digit table `"0123456789abcdef"`. -/
def hexDigit (n : Nat) : Char :=
  if n < 10 then Char.ofNat (48 + n) else Char.ofNat (87 + n)

/-- `hex.EncodeToString`: canonical lowercase hex of a byte slice
(high nibble first; bytes are reduced mod 256 as in the machine type). -/
def hexEncodeToString (bs : List Nat) : String :=
  String.mk (bs.flatMap fun b => [hexDigit (b % 256 / 16), hexDigit (b % 16)])

/-- `bytes.Equal` on the `List Nat` model of byte slices. -/
def bytesEqual (a b : List Nat) : Bool := a == b

/-- Lines 96-102 of `tlog.go`: `for _, v := range logEntry` verifying each
anonymous record of the single returned `models.LogEntry` map against the
resolved log's public key, aborting at the first failure. -/
def verifyAnonEntries (env : VerifyEnv) (verifier : RekorVerifier) :
    List RekorEntryAnon → Option GoError × List Call
  | [] => (none, [])
  | v :: vs =>
    match env.verifyLogEntry v verifier with
    | some e => (some e, [Call.verifyLogEntry v])
    | none => addCall (Call.verifyLogEntry v) (verifyAnonEntries env verifier vs)

/-- Lines 58-103 of `tlog.go`: the strategy-specific check for one entry.
Offline: `tlog.VerifySET` against the trusted root's verifier set.
Online: hex-encode the log key id, look it up in `p.tlogVerifiers`,
resolve a Rekor client, query by log index, require exactly one payload
record, and verify each of its anonymous records. -/
def strategyCheck (p : ArtifactTransparencyLogVerifier) (env : VerifyEnv)
    (entry : TlogEntry) : Option GoError × List Call :=
  if !p.online then
    (env.verifySET entry p.trustedRoot.TlogVerifiers, [Call.verifySET entry])
  else
    let hex64Key := hexEncodeToString entry.LogKeyID
    match p.tlogVerifiers.lookup hex64Key with
    | none => (some (GoError.unknownTlogKey hex64Key), [])
    | some tlogVerifier =>
      addCall (Call.getRekorClient tlogVerifier.BaseURL) <|
        match env.getRekorClient tlogVerifier.BaseURL with
        | Except.error e => (some e, [])
        | Except.ok (client, verifier) =>
          let logIndex := entry.LogIndex
          addCall (Call.searchLogQuery client logIndex) <|
            match env.searchLogQuery client logIndex with
            | Except.error e => (some e, [])
            | Except.ok payload =>
              match payload with
              | [] => (some (GoError.unableToLocateLogEntry logIndex), [])
              | logEntry :: rest =>
                if rest.length > 0 then (some GoError.tooManyLogEntries, [])
                else verifyAnonEntries env verifier logEntry

/-- Lines 105-120 of `tlog.go`: the three cross-checks of an entry
against the entity's own claims, in source order — signature bytes,
certificate key comparison, integrated-time validity. -/
def crossChecks (entitySignature : List Nat) (verificationContent : VerificationContent)
    (entry : TlogEntry) : Option GoError :=
  if !bytesEqual entry.Signature entitySignature then some GoError.sigMismatch
  else if !verificationContent.CompareKey entry.Certificate then some GoError.certMismatch
  else if !verificationContent.ValidAtTime entry.IntegratedTime then
    some GoError.integratedTimeOutsideValidity
  else none

/-- Lines 52-121 of `tlog.go`, body of the per-entry loop:
`tlog.ValidateEntry`, then the strategy-specific check, then the shared
cross-checks; first failure aborts. -/
def verifyEntry (p : ArtifactTransparencyLogVerifier) (env : VerifyEnv)
    (entitySignature : List Nat) (verificationContent : VerificationContent)
    (entry : TlogEntry) : Option GoError × List Call :=
  addCall (Call.validateEntry entry) <|
    match env.validateEntry entry with
    | some e => (some e, [])
    | none =>
      let strat := strategyCheck p env entry
      match strat.1 with
      | some e => (some e, strat.2)
      | none => (crossChecks entitySignature verificationContent entry, strat.2)

/-- The `for _, entry := range entries` loop of `Verify`: entries in
order, first failing entry aborts with its error. -/
def verifyEntries (p : ArtifactTransparencyLogVerifier) (env : VerifyEnv)
    (entitySignature : List Nat) (verificationContent : VerificationContent) :
    List TlogEntry → Option GoError × List Call
  | [] => (none, [])
  | entry :: rest =>
    let r := verifyEntry p env entitySignature verificationContent entry
    match r.1 with
    | some e => (some e, r.2)
    | none =>
      let r2 := verifyEntries p env entitySignature verificationContent rest
      (r2.1, r.2 ++ r2.2)

/-- Lines 31-124 of `tlog.go`: `Verify`.  Extract the entries; fail if
fewer than the threshold; extract signature content and verification
content; then run the per-entry loop.  Returns the Go error (`none` =
success) together with the ordered collaborator-call trace. -/
def ArtifactTransparencyLogVerifier.Verify (p : ArtifactTransparencyLogVerifier)
    (env : VerifyEnv) (entity : SignedEntity) : Option GoError × List Call :=
  match entity.tlogEntries with
  | Except.error e => (some e, [])
  | Except.ok entries =>
    if (entries.length : Int) < p.threshold then
      (some (GoError.notEnoughTlogEntries entries.length p.threshold), [])
    else
      match entity.signatureContent with
      | Except.error e => (some e, [])
      | Except.ok sigContent =>
        let entitySignature := sigContent.GetSignature
        match entity.verificationContent with
        | Except.error e => (some e, [])
        | Except.ok verificationContent =>
          verifyEntries p env entitySignature verificationContent entries

/-! Concrete sample data used by the closed theorems and witnesses. -/

/-- A well-formed sample entry; its log key id `[171]` hex-encodes to
`"ab"`. -/
def sampleEntry : TlogEntry :=
  { LogKeyID := [171], LogIndex := 7, Signature := [1, 2, 3], Certificate := 5,
    IntegratedTime := 100 }

/-- Sample entry whose recorded signature differs from the entity's. -/
def badSigEntry : TlogEntry := { sampleEntry with Signature := [9] }

/-- Sample entry whose embedded certificate fails the key comparison. -/
def badCertEntry : TlogEntry := { sampleEntry with Certificate := 6 }

/-- Sample entry whose integrated time is outside the validity window. -/
def badTimeEntry : TlogEntry := { sampleEntry with IntegratedTime := 50 }

/-- Sample signature content with signature `[1, 2, 3]`. -/
def sampleSC : SignatureContent := { GetSignature := [1, 2, 3] }

/-- Sample verification content accepting certificate `5` and time `100`. -/
def sampleVC : VerificationContent :=
  { CompareKey := fun c => c == 5, ValidAtTime := fun t => t == 100 }

/-- Sample trusted root (opaque verifier-set handle `0`). -/
def sampleRoot : TrustedRoot := { TlogVerifiers := 0 }

/-- Sample trusted log. -/
def sampleTV : TlogVerifier := { BaseURL := "rekor.example" }

/-- Collaborators that all succeed; the online query returns one payload
record holding one anonymous entry. -/
def envOk : VerifyEnv :=
  { validateEntry := fun _ => none
    verifySET := fun _ _ => none
    getRekorClient := fun _ => Except.ok (0, 0)
    searchLogQuery := fun _ _ => Except.ok [[0]]
    verifyLogEntry := fun _ _ => none }

/-- Like `envOk` but the online query returns one payload record that is
an empty map, and log-entry verification always fails (to show it is
never consulted). -/
def envEmptyMap : VerifyEnv :=
  { envOk with
    searchLogQuery := fun _ _ => Except.ok [[]]
    verifyLogEntry := fun _ _ => some (GoError.external "log entry verification failure") }

/-- Like `envOk` but the online query returns two payload records. -/
def envTwoRecords : VerifyEnv :=
  { envOk with searchLogQuery := fun _ _ => Except.ok [[0], [1]] }

/-- Offline verifier with threshold 1. -/
def pOffline : ArtifactTransparencyLogVerifier :=
  NewArtifactTransparencyLogVerifier sampleRoot 1 false []

/-- Online verifier with threshold 1 knowing the log keyed `"ab"`. -/
def pOnline : ArtifactTransparencyLogVerifier :=
  NewArtifactTransparencyLogVerifier sampleRoot 1 true [("ab", sampleTV)]

/-- Online verifier with an empty key-identifier mapping. -/
def pOnlineEmptyMapping : ArtifactTransparencyLogVerifier :=
  NewArtifactTransparencyLogVerifier sampleRoot 1 true []

/-- Entity with one entry that passes everything. -/
def entityOk : SignedEntity :=
  { tlogEntries := Except.ok [sampleEntry]
    signatureContent := Except.ok sampleSC
    verificationContent := Except.ok sampleVC }

/-- Entity whose only (first) entry fails the signature cross-check. -/
def entityFailFirst : SignedEntity :=
  { entityOk with tlogEntries := Except.ok [badSigEntry] }

/-- Entity whose second entry fails the signature cross-check. -/
def entityFailSecond : SignedEntity :=
  { entityOk with tlogEntries := Except.ok [sampleEntry, badSigEntry] }

/-- Entity whose only entry fails the certificate cross-check. -/
def entityFailCert : SignedEntity :=
  { entityOk with tlogEntries := Except.ok [badCertEntry] }

/-- Entity whose only entry fails the time cross-check. -/
def entityFailTime : SignedEntity :=
  { entityOk with tlogEntries := Except.ok [badTimeEntry] }

/-- Entity with no entries whose signature and verification content both
fail to parse. -/
def entityParseFailBelow : SignedEntity :=
  { tlogEntries := Except.ok []
    signatureContent := Except.error (GoError.external "signature content parse failure")
    verificationContent := Except.error (GoError.external "verification content parse failure") }

/-! Helper lemmas shared by the claim theorems. -/

/-- The first component of the entry loop is the first per-entry error. -/
theorem verifyEntries_fst_eq_findSome (p : ArtifactTransparencyLogVerifier)
    (env : VerifyEnv) (sig : List Nat) (vc : VerificationContent) :
    ∀ entries : List TlogEntry,
      (verifyEntries p env sig vc entries).1 =
        entries.findSome? fun e => (verifyEntry p env sig vc e).1
  | [] => rfl
  | entry :: rest => by
    rw [verifyEntries, List.findSome?_cons]
    cases h : (verifyEntry p env sig vc entry).1 with
    | none => simpa [h] using verifyEntries_fst_eq_findSome p env sig vc rest
    | some e => simp [h]

/-- `findSome?` returns `none` exactly when the function does on every
element. -/
theorem findSomeNoneIff {α β : Type} (f : α → Option β) :
    ∀ l : List α, (l.findSome? f = none ↔ ∀ a ∈ l, f a = none)
  | [] => by simp
  | a :: l => by
    rw [List.findSome?_cons]
    cases h : f a with
    | none => simp [h, findSomeNoneIff f l]
    | some b => simp [h]

/-- With the entity's accessors pinned and the threshold gate passed,
`Verify`'s error is the first per-entry error in entity order. -/
theorem Verify_fst_findSome (p : ArtifactTransparencyLogVerifier) (env : VerifyEnv)
    (entity : SignedEntity) (entries : List TlogEntry) (sc : SignatureContent)
    (vc : VerificationContent)
    (hent : entity.tlogEntries = Except.ok entries)
    (hthr : ¬ ((entries.length : Int) < p.threshold))
    (hsig : entity.signatureContent = Except.ok sc)
    (hvc : entity.verificationContent = Except.ok vc) :
    (p.Verify env entity).1 =
      entries.findSome? fun e => (verifyEntry p env sc.GetSignature vc e).1 := by
  unfold ArtifactTransparencyLogVerifier.Verify
  rw [hent, hsig, hvc]
  simp [hthr, verifyEntries_fst_eq_findSome]

/-! Claim theorems. -/

/-- C1: for every `SignedEntity` whose entries extract successfully, if
the number of transparency log entries is strictly below the configured
threshold, `Verify` fails with the insufficient-evidence error and the
collaborator-call trace is empty — no structural validation, no offline
SET verification, and no online log lookup or query is performed. -/
theorem verify_below_threshold_insufficient_no_work
    (p : ArtifactTransparencyLogVerifier) (env : VerifyEnv) (entity : SignedEntity)
    (entries : List TlogEntry)
    (hent : entity.tlogEntries = Except.ok entries)
    (hthr : (entries.length : Int) < p.threshold) :
    p.Verify env entity =
      (some (GoError.notEnoughTlogEntries entries.length p.threshold), []) := by
  unfold ArtifactTransparencyLogVerifier.Verify
  rw [hent]
  simp [hthr]

/-- Witness for C1: threshold 2, one entry. -/
theorem verify_below_threshold_insufficient_no_work_witness :
    (NewArtifactTransparencyLogVerifier sampleRoot 2 false []).Verify envOk entityOk =
      (some (GoError.notEnoughTlogEntries 1 2), []) := by
  have h := verify_below_threshold_insufficient_no_work
    (NewArtifactTransparencyLogVerifier sampleRoot 2 false []) envOk entityOk
    [sampleEntry] rfl (by decide)
  simpa using h

/-- C10: the constructor stores any integer threshold unvalidated; for
every threshold at most zero — negative included — an entity exposing no
entries, with signature and verification content parsing successfully,
passes `Verify` in either mode with an empty call trace: no
cryptographic or network work. -/
theorem new_verifier_nonpositive_threshold_empty_ok
    (trustedRoot : TrustedRoot) (threshold : Int) (online : Bool)
    (tlogVerifiers : List (String × TlogVerifier)) (env : VerifyEnv)
    (entity : SignedEntity) (sc : SignatureContent) (vc : VerificationContent)
    (hthr : threshold ≤ 0)
    (hent : entity.tlogEntries = Except.ok [])
    (hsig : entity.signatureContent = Except.ok sc)
    (hvc : entity.verificationContent = Except.ok vc) :
    (NewArtifactTransparencyLogVerifier trustedRoot threshold online
      tlogVerifiers).Verify env entity = (none, []) := by
  unfold ArtifactTransparencyLogVerifier.Verify NewArtifactTransparencyLogVerifier
  rw [hent, hsig, hvc]
  have hlt : ¬ (((([] : List TlogEntry).length : Int)) < threshold) := by
    simp only [List.length_nil, Nat.cast_zero]
    omega
  simp [hlt, verifyEntries]
  omega

/-- Witness for C10: threshold `-1`, online mode, zero entries. -/
theorem new_verifier_nonpositive_threshold_empty_ok_witness :
    (NewArtifactTransparencyLogVerifier sampleRoot (-1) true []).Verify envOk
      { entityOk with tlogEntries := Except.ok [] } = (none, []) :=
  new_verifier_nonpositive_threshold_empty_ok sampleRoot (-1) true [] envOk
    { entityOk with tlogEntries := Except.ok [] } sampleSC sampleVC
    (by decide) rfl rfl rfl

/-- C8 counterexample: an entity below threshold whose signature content
fails to parse gets the insufficient-evidence error, not the parse
failure — the threshold check runs before the content fetches. -/
theorem verify_threshold_precedes_content_fetch :
    (pOffline.Verify envOk entityParseFailBelow).1 =
      some (GoError.notEnoughTlogEntries 0 1) ∧
    (pOffline.Verify envOk entityParseFailBelow).1 ≠
      some (GoError.external "signature content parse failure") := by
  decide

/-- C8 amended: entries are fetched before the threshold check, but
signature content (and then verification content) is fetched only after
the gate passes; once it does, a parse failure of the signature content
is surfaced as is, with no per-entry work. -/
theorem verify_content_parse_failure_after_threshold
    (p : ArtifactTransparencyLogVerifier) (env : VerifyEnv) (entity : SignedEntity)
    (entries : List TlogEntry) (e : GoError)
    (hent : entity.tlogEntries = Except.ok entries)
    (hthr : ¬ ((entries.length : Int) < p.threshold))
    (hsig : entity.signatureContent = Except.error e) :
    p.Verify env entity = (some e, []) := by
  unfold ArtifactTransparencyLogVerifier.Verify
  rw [hent, hsig]
  simp [hthr]

/-- Witness for C8's amended claim: one entry meets threshold 1; the
signature-content parse failure is surfaced. -/
theorem verify_content_parse_failure_after_threshold_witness :
    pOffline.Verify envOk
      { entityOk with
        signatureContent := Except.error (GoError.external "signature content parse failure") } =
      (some (GoError.external "signature content parse failure"), []) :=
  verify_content_parse_failure_after_threshold pOffline envOk
    { entityOk with
      signatureContent := Except.error (GoError.external "signature content parse failure") }
    [sampleEntry] (GoError.external "signature content parse failure")
    rfl (by decide) rfl

/-- C5: in online mode, when the canonical hex encoding of an entry's
log key identifier is absent from the configured mapping, the entry
fails with the unknown-log-identifier error and the only collaborator
call made for it is the structural validation — no log-client
resolution and no log query. -/
theorem verify_entry_unknown_key_no_network
    (p : ArtifactTransparencyLogVerifier) (env : VerifyEnv)
    (entitySignature : List Nat) (vc : VerificationContent) (entry : TlogEntry)
    (honline : p.online = true)
    (hval : env.validateEntry entry = none)
    (hmiss : p.tlogVerifiers.lookup (hexEncodeToString entry.LogKeyID) = none) :
    verifyEntry p env entitySignature vc entry =
      (some (GoError.unknownTlogKey (hexEncodeToString entry.LogKeyID)),
       [Call.validateEntry entry]) := by
  unfold verifyEntry strategyCheck
  simp only [hval, honline, Bool.not_true, Bool.false_eq_true, if_false, hmiss, addCall]

/-- Witness for C5: online verifier with an empty mapping. -/
theorem verify_entry_unknown_key_no_network_witness :
    verifyEntry pOnlineEmptyMapping envOk [1, 2, 3] sampleVC sampleEntry =
      (some (GoError.unknownTlogKey (hexEncodeToString sampleEntry.LogKeyID)),
       [Call.validateEntry sampleEntry]) :=
  verify_entry_unknown_key_no_network pOnlineEmptyMapping envOk [1, 2, 3] sampleVC
    sampleEntry rfl rfl rfl

/-- C4: in online mode, when the log query succeeds but its payload does
not hold exactly one record, the strategy check fails — with the
not-found error on zero records and the too-many error on two or more —
and its call trace stops at the query: no record is picked and no
log-entry verification is attempted. -/
theorem strategy_check_online_payload_count_mismatch
    (p : ArtifactTransparencyLogVerifier) (env : VerifyEnv) (entry : TlogEntry)
    (tv : TlogVerifier) (client : RekorClient) (verifier : RekorVerifier)
    (payload : List (List RekorEntryAnon))
    (honline : p.online = true)
    (hfound : p.tlogVerifiers.lookup (hexEncodeToString entry.LogKeyID) = some tv)
    (hclient : env.getRekorClient tv.BaseURL = Except.ok (client, verifier))
    (hquery : env.searchLogQuery client entry.LogIndex = Except.ok payload)
    (hlen : payload.length ≠ 1) :
    strategyCheck p env entry =
      (some (if payload.length = 0 then GoError.unableToLocateLogEntry entry.LogIndex
             else GoError.tooManyLogEntries),
       [Call.getRekorClient tv.BaseURL, Call.searchLogQuery client entry.LogIndex]) := by
  unfold strategyCheck
  simp only [honline, Bool.not_true, Bool.false_eq_true, if_false, hfound, hclient, hquery,
    addCall]
  cases payload with
  | nil => simp
  | cons x rest =>
    cases rest with
    | nil => simp at hlen
    | cons y r => simp

/-- Witness for C4: a query returning two payload records yields the
too-many-entries error. -/
theorem strategy_check_online_payload_count_mismatch_witness :
    strategyCheck pOnline envTwoRecords sampleEntry =
      (some GoError.tooManyLogEntries,
       [Call.getRekorClient sampleTV.BaseURL,
        Call.searchLogQuery 0 sampleEntry.LogIndex]) := by
  have h := strategy_check_online_payload_count_mismatch pOnline envTwoRecords
    sampleEntry sampleTV 0 0 [[0], [1]] rfl (by decide) rfl rfl (by decide)
  simpa using h

/-- C3: in online mode, when the query returns exactly one payload
record that holds zero inner log entries, no log-entry verification is
performed at all — the trace ends at the query and the entry's result is
exactly that of the shared cross-checks, so verification can succeed
without the entry ever being checked against the resolved log's key. -/
theorem verify_entry_empty_map_skips_log_verification
    (p : ArtifactTransparencyLogVerifier) (env : VerifyEnv)
    (entitySignature : List Nat) (vc : VerificationContent) (entry : TlogEntry)
    (tv : TlogVerifier) (client : RekorClient) (verifier : RekorVerifier)
    (honline : p.online = true)
    (hval : env.validateEntry entry = none)
    (hfound : p.tlogVerifiers.lookup (hexEncodeToString entry.LogKeyID) = some tv)
    (hclient : env.getRekorClient tv.BaseURL = Except.ok (client, verifier))
    (hquery : env.searchLogQuery client entry.LogIndex = Except.ok [[]]) :
    verifyEntry p env entitySignature vc entry =
      (crossChecks entitySignature vc entry,
       [Call.validateEntry entry, Call.getRekorClient tv.BaseURL,
        Call.searchLogQuery client entry.LogIndex]) := by
  unfold verifyEntry strategyCheck
  simp only [hval, honline, Bool.not_true, Bool.false_eq_true, if_false, hfound, hclient,
    hquery, addCall, verifyAnonEntries]
  cases h : crossChecks entitySignature vc entry <;> simp [h]

/-- Witness for C3: the env's log-entry verifier always fails, yet the
entry passes because the empty map makes the inner loop vacuous. -/
theorem verify_entry_empty_map_skips_log_verification_witness :
    verifyEntry pOnline envEmptyMap [1, 2, 3] sampleVC sampleEntry =
      (crossChecks [1, 2, 3] sampleVC sampleEntry,
       [Call.validateEntry sampleEntry, Call.getRekorClient sampleTV.BaseURL,
        Call.searchLogQuery 0 sampleEntry.LogIndex]) ∧
    crossChecks [1, 2, 3] sampleVC sampleEntry = none :=
  ⟨by
    have h := verify_entry_empty_map_skips_log_verification pOnline envEmptyMap
      [1, 2, 3] sampleVC sampleEntry sampleTV 0 0 rfl rfl (by decide) rfl rfl
    simpa using h,
   by decide⟩

/-- C6: once the structural validation and the strategy-specific check
of an entry succeed, the entry's result is the cross-check chain in the
fixed source order — signature bytes first, then certificate key
comparison, then integrated-time validity — each failure mapping to its
own error. -/
theorem verify_entry_cross_check_order
    (p : ArtifactTransparencyLogVerifier) (env : VerifyEnv)
    (entitySignature : List Nat) (vc : VerificationContent) (entry : TlogEntry)
    (hval : env.validateEntry entry = none)
    (hstrat : (strategyCheck p env entry).1 = none) :
    (verifyEntry p env entitySignature vc entry).1 =
      (if !bytesEqual entry.Signature entitySignature then some GoError.sigMismatch
       else if !vc.CompareKey entry.Certificate then some GoError.certMismatch
       else if !vc.ValidAtTime entry.IntegratedTime then
         some GoError.integratedTimeOutsideValidity
       else none) := by
  unfold verifyEntry
  rw [hval]
  simp only [addCall]
  rw [hstrat]
  rfl

/-- Witness for C6: offline entry whose signature bytes mismatch. -/
theorem verify_entry_cross_check_order_witness :
    (verifyEntry pOffline envOk [1, 2, 3] sampleVC badSigEntry).1 =
      some GoError.sigMismatch := by
  have h := verify_entry_cross_check_order pOffline envOk [1, 2, 3] sampleVC
    badSigEntry rfl rfl
  simpa using h

/-- C2: past the threshold gate (entries, signature content and
verification content extracted), `Verify`'s outcome is exactly the first
per-entry failure in entity order: `none` (success) when every entry
passes every check, and otherwise the specific error of the first
failing entry — which, by the shape of `verifyEntry`, is the error of
its first failing check.  There is no partial-success result. -/
theorem verify_first_failure_determines_result
    (p : ArtifactTransparencyLogVerifier) (env : VerifyEnv) (entity : SignedEntity)
    (entries : List TlogEntry) (sc : SignatureContent) (vc : VerificationContent)
    (hent : entity.tlogEntries = Except.ok entries)
    (hthr : ¬ ((entries.length : Int) < p.threshold))
    (hsig : entity.signatureContent = Except.ok sc)
    (hvc : entity.verificationContent = Except.ok vc) :
    (p.Verify env entity).1 =
      entries.findSome? fun e => (verifyEntry p env sc.GetSignature vc e).1 :=
  Verify_fst_findSome p env entity entries sc vc hent hthr hsig hvc

/-- Witness for C2: the second entry's signature mismatch is the
reported error. -/
theorem verify_first_failure_determines_result_witness :
    (pOffline.Verify envOk entityFailSecond).1 =
      List.findSome?
        (fun e => (verifyEntry pOffline envOk sampleSC.GetSignature sampleVC e).1)
        [sampleEntry, badSigEntry] ∧
    (pOffline.Verify envOk entityFailSecond).1 = some GoError.sigMismatch :=
  ⟨verify_first_failure_determines_result pOffline envOk entityFailSecond
     [sampleEntry, badSigEntry] sampleSC sampleVC rfl (by decide) rfl rfl,
   by decide⟩

/-- C9: with the collaborators and all other inputs held fixed,
verification success is invariant under permutation of the entry
sequence: two entities exposing permuted entry lists and the same
signature/verification content either both verify or both fail. -/
theorem verify_success_perm_invariant
    (p : ArtifactTransparencyLogVerifier) (env : VerifyEnv)
    (e1 e2 : SignedEntity) (l1 l2 : List TlogEntry)
    (sc : SignatureContent) (vc : VerificationContent)
    (hperm : l1.Perm l2)
    (hent1 : e1.tlogEntries = Except.ok l1)
    (hent2 : e2.tlogEntries = Except.ok l2)
    (hsig1 : e1.signatureContent = Except.ok sc)
    (hsig2 : e2.signatureContent = Except.ok sc)
    (hvc1 : e1.verificationContent = Except.ok vc)
    (hvc2 : e2.verificationContent = Except.ok vc)
    (hthr : ¬ ((l1.length : Int) < p.threshold)) :
    ((p.Verify env e1).1 = none ↔ (p.Verify env e2).1 = none) := by
  have hthr2 : ¬ ((l2.length : Int) < p.threshold) := by
    rw [← hperm.length_eq]; exact hthr
  rw [Verify_fst_findSome p env e1 l1 sc vc hent1 hthr hsig1 hvc1,
    Verify_fst_findSome p env e2 l2 sc vc hent2 hthr2 hsig2 hvc2,
    findSomeNoneIff, findSomeNoneIff]
  exact ⟨fun h a ha => h a (hperm.mem_iff.mpr ha),
    fun h a ha => h a (hperm.mem_iff.mp ha)⟩

/-- Witness for C9: swapping the two entries of a failing entity leaves
the failure outcome unchanged. -/
theorem verify_success_perm_invariant_witness :
    ((pOffline.Verify envOk entityFailSecond).1 = none ↔
      (pOffline.Verify envOk
        { entityOk with tlogEntries := Except.ok [badSigEntry, sampleEntry] }).1 = none) :=
  verify_success_perm_invariant pOffline envOk entityFailSecond
    { entityOk with tlogEntries := Except.ok [badSigEntry, sampleEntry] }
    [sampleEntry, badSigEntry] [badSigEntry, sampleEntry] sampleSC sampleVC
    (List.Perm.swap badSigEntry sampleEntry []) rfl rfl rfl rfl rfl rfl (by decide)

/-- C7 counterexample: two entities whose signature cross-check fails at
different entry indices (first versus second) receive the very same
error value — `Verify` failures do not identify the failing entry's
index. -/
theorem verify_error_lacks_entry_index :
    (pOffline.Verify envOk entityFailFirst).1 =
      (pOffline.Verify envOk entityFailSecond).1 ∧
    (pOffline.Verify envOk entityFailFirst).1 = some GoError.sigMismatch := by
  decide

/-- Every own-error message of `Verify` starts with its kind's
18-character tag, whatever the interpolated key, index or counts are. -/
theorem message_take_eq_kindTagList (e : GoError) (h : e.kind ≠ 0) :
    e.message.data.take 18 = kindTagList e.kind := by
  cases e with
  | external m => exact absurd rfl h
  | notEnoughTlogEntries n t =>
    show ("not enough transparency log entries: " ++ toString n ++ " < "
      ++ toString t).data.take 18 = _
    rw [String.data_append, String.data_append, String.data_append,
      List.append_assoc, List.append_assoc,
      List.take_append_of_le_length (by decide)]
    simp only [GoError.kind, kindTagList]
    decide
  | unknownTlogKey k =>
    show ("unable to find tlog information for key " ++ k).data.take 18 = _
    rw [String.data_append, List.take_append_of_le_length (by decide)]
    simp only [GoError.kind, kindTagList]
    decide
  | unableToLocateLogEntry i =>
    show ("unable to locate log entry " ++ toString i).data.take 18 = _
    rw [String.data_append, List.take_append_of_le_length (by decide)]
    simp only [GoError.kind, kindTagList]
    decide
  | tooManyLogEntries => decide
  | sigMismatch => decide
  | certMismatch => decide
  | integratedTimeOutsideValidity => decide

/-- The constructor index of any error is one of 0-7. -/
theorem kind_lt8 (e : GoError) : e.kind < 8 := by
  cases e <;> simp [GoError.kind]

/-- The 18-character tags of the seven own-error kinds of `Verify` are
pairwise distinct. -/
theorem kindTagList_inj :
    ∀ k1 : Nat, k1 < 8 → ∀ k2 : Nat, k2 < 8 →
      kindTagList k1 = kindTagList k2 → k1 = 0 ∨ k2 = 0 ∨ k1 = k2 := by
  decide

/-- C7 amended: every failure `Verify` constructs at one of its own
return sites (as opposed to an error propagated verbatim from a
collaborator) is a distinct error kind whose message identifies which
check failed: two such failures returned by `Verify` for different
checks never carry the same message.  No failure carries the failing
entry's index. -/
theorem verify_error_identifies_check
    (pa pb : ArtifactTransparencyLogVerifier) (enva envb : VerifyEnv)
    (enta entb : SignedEntity) (ea eb : GoError)
    (ha : (pa.Verify enva enta).1 = some ea)
    (hb : (pb.Verify envb entb).1 = some eb)
    (hka : ea.kind ≠ 0) (hkb : eb.kind ≠ 0)
    (hne : ea.kind ≠ eb.kind) :
    ea.message ≠ eb.message := by
  intro hmsg
  have ta := message_take_eq_kindTagList ea hka
  have tb := message_take_eq_kindTagList eb hkb
  rw [hmsg] at ta
  rcases kindTagList_inj ea.kind (kind_lt8 ea) eb.kind (kind_lt8 eb)
    (ta.symm.trans tb) with h | h | h
  · exact hka h
  · exact hkb h
  · exact hne h

/-- Witness for C7's amended claim: a signature-mismatch failure and a
certificate-mismatch failure returned by `Verify` carry different
messages. -/
theorem verify_error_identifies_check_witness :
    GoError.message GoError.sigMismatch ≠ GoError.message GoError.certMismatch :=
  verify_error_identifies_check pOffline pOffline envOk envOk entityFailFirst
    entityFailCert GoError.sigMismatch GoError.certMismatch (by decide) (by decide)
    (by decide) (by decide) (by decide)
